import Mathlib

/-!
Shallow embedding of the SHT4x sensor driver (src/sht4x.c, src/include/sht4x.h).

Machine integers are modelled as `Nat` (with explicit `% 256` / `% 2^64`
where the C types truncate) and `Int` for `esp_err_t`.  The I2C bus is
modelled by a `Bus` record saying whether the command write and the 6-byte
read succeed and what frame the read returns; each driver operation returns
the `esp_err_t` result, the trace of bus/delay events it performed, and the
values it wrote through its output pointers (`none` = outputs untouched).
-/

namespace Sht4x

/-- `ESP_OK` from esp_err.h. -/
def ESP_OK : Int := 0

/-- `ESP_FAIL` from esp_err.h. -/
def ESP_FAIL : Int := -1

/-- `CRC8_POLYNOMIAL` macro, sht4x.c line 44. -/
def CRC8_POLYNOMIAL : Nat := 0x31

/-- `CRC8_INIT` macro, sht4x.c line 45. -/
def CRC8_INIT : Nat := 0xFF

/-- One iteration of the inner bit loop of `generate_crc` (sht4x.c lines
851-858): shift left, XOR the polynomial when the top bit was set; the
`uint8_t` assignment truncates to 8 bits. -/
def crcBitStep (crc : Nat) : Nat :=
  if crc &&& 0x80 ≠ 0 then ((crc <<< 1) ^^^ CRC8_POLYNOMIAL) % 256
  else (crc <<< 1) % 256

/-- One iteration of the outer byte loop of `generate_crc` (sht4x.c lines
848-859): XOR the data byte into the running crc, then run 8 bit steps. -/
def crcByteStep (crc b : Nat) : Nat :=
  Nat.iterate crcBitStep 8 ((crc ^^^ b) % 256)

/-- `generate_crc` (sht4x.c lines 842-861): fold the byte step over the
data, starting from `CRC8_INIT`; the `count` argument of the C function is
the length of the list. -/
def generate_crc (data : List Nat) : Nat :=
  data.foldl crcByteStep CRC8_INIT

/-- `check_crc` (sht4x.c lines 866-872). -/
def check_crc (data : List Nat) (checksum : Nat) : Bool :=
  if generate_crc data ≠ checksum then false else true

/-- `convert_ticks_to_celsius` (sht4x.c lines 828-830), with the
floating-point arithmetic modelled exactly over the rationals. -/
def convert_ticks_to_celsius (ticks : Nat) : ℚ :=
  (ticks : ℚ) * 175 / 65535 - 45

/-- `convert_ticks_to_percent_rh` (sht4x.c lines 835-837), with the
floating-point arithmetic modelled exactly over the rationals. -/
def convert_ticks_to_percent_rh (ticks : Nat) : ℚ :=
  (ticks : ℚ) * 125 / 65535 - 6

/-- The spec's formula "temperature (°C) = ticks × 175 / 65535 − 45"
(spec §4.2), written independently of the source. -/
def specTempFormula (t : ℚ) : ℚ := t * 175 / 65535 - 45

/-- The spec's formula "relative humidity (%) = ticks × 125 / 65535 − 6"
(spec §4.2), written independently of the source. -/
def specHumFormula (t : ℚ) : ℚ := t * 125 / 65535 - 6

/-- `sht4x_init` (sht4x.c lines 130-154), as a function of the result of
`i2c_master_bus_add_device`: `ret` is initialised to `ESP_OK` and is what
gets returned on both the failure branch and the success branch. -/
def sht4x_init (add_device_result : Int) : Int :=
  let ret : Int := ESP_OK
  if add_device_result ≠ ESP_OK then ret else ret

/-- The 6-byte response frame read from the sensor (`data_rx` in sht4x.c),
two 3-byte groups of 2 data bytes plus a checksum byte. -/
structure Frame where
  b0 : Nat
  b1 : Nat
  b2 : Nat
  b3 : Nat
  b4 : Nat
  b5 : Nat
deriving DecidableEq

/-- Model of the I2C bus during one driver operation: whether the one-byte
command transmit (`i2c_write`, sht4x.c lines 793-802) succeeds, whether the
6-byte receive (`i2c_read`, lines 779-788) succeeds, and the frame the
receive fills in. -/
structure Bus where
  writeOk : Bool
  readOk : Bool
  frame : Frame
deriving DecidableEq

/-- Observable actions an operation performs, in order: transmitting the
one opcode byte, blocking in `delay_us` for the given microseconds, and
reading the given number of bytes. -/
inductive Event where
  | write (opcode : Nat)
  | delay (us : Nat)
  | read (len : Nat)
deriving DecidableEq

/-- Result of a tick-level measurement operation: the `esp_err_t` return
value, the trace of bus/delay events, and the pair written through the
`temp_ticks`/`hum_ticks` output pointers (`none` = pointers untouched). -/
abbrev TicksResult := Int × List Event × Option (Nat × Nat)

/-- The common body shared verbatim by the nine `*_ticks` measurement
functions (sht4x.c lines 406-723), which differ only in the opcode and the
microsecond delay: write the command byte (fail returns `ESP_FAIL` before
the delay and the read), delay, read 6 bytes, check the CRC of each 3-byte
group (lines 425-429), then store the two big-endian 16-bit values
(lines 431-432). -/
def measure_ticks_body (cmd d : Nat) (bus : Bus) : TicksResult :=
  if bus.writeOk = false then
    (ESP_FAIL, [Event.write cmd], none)
  else if bus.readOk = false then
    (ESP_FAIL, [Event.write cmd, Event.delay d, Event.read 6], none)
  else if check_crc [bus.frame.b0, bus.frame.b1] bus.frame.b2 = false then
    (ESP_FAIL, [Event.write cmd, Event.delay d, Event.read 6], none)
  else if check_crc [bus.frame.b3, bus.frame.b4] bus.frame.b5 = false then
    (ESP_FAIL, [Event.write cmd, Event.delay d, Event.read 6], none)
  else
    (ESP_OK, [Event.write cmd, Event.delay d, Event.read 6],
      some ((bus.frame.b0 <<< 8) ||| bus.frame.b1,
            (bus.frame.b3 <<< 8) ||| bus.frame.b4))

/-- `SHT4X_MEASURE_HIGH_PRECISION_TICKS_CMD` (sht4x.h line 60). -/
def SHT4X_MEASURE_HIGH_PRECISION_TICKS_CMD : Nat := 0xfd

/-- `SHT4X_MEASURE_MEDIUM_PRECISION_TICKS_CMD` (sht4x.h line 61). -/
def SHT4X_MEASURE_MEDIUM_PRECISION_TICKS_CMD : Nat := 0xf6

/-- `SHT4X_MEASURE_LOWEST_PRECISION_TICKS_CMD` (sht4x.h line 62). -/
def SHT4X_MEASURE_LOWEST_PRECISION_TICKS_CMD : Nat := 0xe0

/-- `SHT4X_ACTIVATE_HIGHEST_HEATER_POWER_LONG_TICKS_CMD` (sht4x.h line 63). -/
def SHT4X_ACTIVATE_HIGHEST_HEATER_POWER_LONG_TICKS_CMD : Nat := 0x39

/-- `SHT4X_ACTIVATE_HIGHEST_HEATER_POWER_SHORT_TICKS_CMD` (sht4x.h line 64). -/
def SHT4X_ACTIVATE_HIGHEST_HEATER_POWER_SHORT_TICKS_CMD : Nat := 0x32

/-- `SHT4X_ACTIVATE_MEDIUM_HEATER_POWER_LONG_TICKS_CMD` (sht4x.h line 65). -/
def SHT4X_ACTIVATE_MEDIUM_HEATER_POWER_LONG_TICKS_CMD : Nat := 0x2f

/-- `SHT4X_ACTIVATE_MEDIUM_HEATER_POWER_SHORT_TICKS_CMD` (sht4x.h line 66). -/
def SHT4X_ACTIVATE_MEDIUM_HEATER_POWER_SHORT_TICKS_CMD : Nat := 0x24

/-- `SHT4X_ACTIVATE_LOWEST_HEATER_POWER_LONG_TICKS_CMD` (sht4x.h line 67). -/
def SHT4X_ACTIVATE_LOWEST_HEATER_POWER_LONG_TICKS_CMD : Nat := 0x1e

/-- `SHT4X_ACTIVATE_LOWEST_HEATER_POWER_SHORT_TICKS_CMD` (sht4x.h line 68). -/
def SHT4X_ACTIVATE_LOWEST_HEATER_POWER_SHORT_TICKS_CMD : Nat := 0x15

/-- `SHT4X_SERIAL_NUMBER_CMD` (sht4x.h line 69). -/
def SHT4X_SERIAL_NUMBER_CMD : Nat := 0x89

/-- `SHT4X_SOFT_RESET_CMD` (sht4x.h line 70). -/
def SHT4X_SOFT_RESET_CMD : Nat := 0x94

/-- `sht4x_measure_high_precision_ticks` (sht4x.c lines 406-436):
opcode 0xFD, `delay_us(10 * 1000)`. -/
def sht4x_measure_high_precision_ticks (bus : Bus) : TicksResult :=
  measure_ticks_body SHT4X_MEASURE_HIGH_PRECISION_TICKS_CMD (10 * 1000) bus

/-- `sht4x_measure_medium_precision_ticks` (sht4x.c lines 441-471):
opcode 0xF6, `delay_us(5 * 1000)`. -/
def sht4x_measure_medium_precision_ticks (bus : Bus) : TicksResult :=
  measure_ticks_body SHT4X_MEASURE_MEDIUM_PRECISION_TICKS_CMD (5 * 1000) bus

/-- `sht4x_measure_lowest_precision_ticks` (sht4x.c lines 476-506):
opcode 0xE0, `delay_us(2 * 1000)`. -/
def sht4x_measure_lowest_precision_ticks (bus : Bus) : TicksResult :=
  measure_ticks_body SHT4X_MEASURE_LOWEST_PRECISION_TICKS_CMD (2 * 1000) bus

/-- `sht4x_activate_highest_heater_power_long_ticks` (sht4x.c lines
512-542): opcode 0x39, `delay_us(1100 * 1000)`. -/
def sht4x_activate_highest_heater_power_long_ticks (bus : Bus) : TicksResult :=
  measure_ticks_body SHT4X_ACTIVATE_HIGHEST_HEATER_POWER_LONG_TICKS_CMD (1100 * 1000) bus

/-- `sht4x_activate_highest_heater_power_short_ticks` (sht4x.c lines
548-578): opcode 0x32, `delay_us(110 * 1000)`. -/
def sht4x_activate_highest_heater_power_short_ticks (bus : Bus) : TicksResult :=
  measure_ticks_body SHT4X_ACTIVATE_HIGHEST_HEATER_POWER_SHORT_TICKS_CMD (110 * 1000) bus

/-- `sht4x_activate_medium_heater_power_long_ticks` (sht4x.c lines
585-615): opcode 0x2F, `delay_us(1100 * 1000)`. -/
def sht4x_activate_medium_heater_power_long_ticks (bus : Bus) : TicksResult :=
  measure_ticks_body SHT4X_ACTIVATE_MEDIUM_HEATER_POWER_LONG_TICKS_CMD (1100 * 1000) bus

/-- `sht4x_activate_medium_heater_power_short_ticks` (sht4x.c lines
621-651): opcode 0x24, `delay_us(110 * 1000)`. -/
def sht4x_activate_medium_heater_power_short_ticks (bus : Bus) : TicksResult :=
  measure_ticks_body SHT4X_ACTIVATE_MEDIUM_HEATER_POWER_SHORT_TICKS_CMD (110 * 1000) bus

/-- `sht4x_activate_lowest_heater_power_long_ticks` (sht4x.c lines
657-687): opcode 0x1E, `delay_us(1100 * 1000)`. -/
def sht4x_activate_lowest_heater_power_long_ticks (bus : Bus) : TicksResult :=
  measure_ticks_body SHT4X_ACTIVATE_LOWEST_HEATER_POWER_LONG_TICKS_CMD (1100 * 1000) bus

/-- `sht4x_activate_lowest_heater_power_short_ticks` (sht4x.c lines
693-723): opcode 0x15, `delay_us(110 * 1000)`. -/
def sht4x_activate_lowest_heater_power_short_ticks (bus : Bus) : TicksResult :=
  measure_ticks_body SHT4X_ACTIVATE_LOWEST_HEATER_POWER_SHORT_TICKS_CMD (110 * 1000) bus

/-- `sht4x_get_serial_number` (sht4x.c lines 728-755): same shape as the
measurement functions (opcode 0x89, 10 ms delay, 6-byte read, two CRC
checks) but the output written through `serial_number` is
`(b0 << 8) | b1 | (b3 << 8) | b4` — the bitwise-OR assembly of line 751,
transcribed exactly as the source computes it. -/
def sht4x_get_serial_number (bus : Bus) : Int × List Event × Option Nat :=
  if bus.writeOk = false then
    (ESP_FAIL, [Event.write SHT4X_SERIAL_NUMBER_CMD], none)
  else if bus.readOk = false then
    (ESP_FAIL, [Event.write SHT4X_SERIAL_NUMBER_CMD, Event.delay (10 * 1000), Event.read 6], none)
  else if check_crc [bus.frame.b0, bus.frame.b1] bus.frame.b2 = false then
    (ESP_FAIL, [Event.write SHT4X_SERIAL_NUMBER_CMD, Event.delay (10 * 1000), Event.read 6], none)
  else if check_crc [bus.frame.b3, bus.frame.b4] bus.frame.b5 = false then
    (ESP_FAIL, [Event.write SHT4X_SERIAL_NUMBER_CMD, Event.delay (10 * 1000), Event.read 6], none)
  else
    (ESP_OK, [Event.write SHT4X_SERIAL_NUMBER_CMD, Event.delay (10 * 1000), Event.read 6],
      some ((bus.frame.b0 <<< 8) ||| bus.frame.b1 ||| ((bus.frame.b3 <<< 8) ||| bus.frame.b4)))

/-- `sht4x_soft_reset` (sht4x.c lines 760-773): write opcode 0x94, delay
10 ms, no read and no output. -/
def sht4x_soft_reset (bus : Bus) : Int × List Event :=
  if bus.writeOk = false then
    (ESP_FAIL, [Event.write SHT4X_SOFT_RESET_CMD])
  else
    (ESP_OK, [Event.write SHT4X_SOFT_RESET_CMD, Event.delay (10 * 1000)])

/-- The final contents of the caller's two output variables after an
operation, given their initial contents: the C functions write through the
output pointers only on the success path, so `none` leaves them unchanged. -/
def finalOutputs (r : TicksResult) (init : Nat × Nat) : Nat × Nat :=
  match r.2.2 with
  | none => init
  | some v => v

/-- The modulus of the C `uint64_t` type, 2^64: `delay_us` stores clock
readings and the deadline in `uint64_t`. -/
def U64 : Nat := 18446744073709551616

/-- A `uint64_t` clock reading: the unbounded monotone raw time truncated
to 64 bits, as `(uint64_t)esp_timer_get_time()` yields it in `delay_us`. -/
def reading (raw : Nat) : Nat := raw % U64

/-- One busy-wait loop of `delay_us`: `clk n` is the raw monotone time at
the n-th call of `esp_timer_get_time`, `cond` the loop condition on the
64-bit reading; returns the sample index at which the loop exits, spending
one unit of fuel per iteration (`none` = fuel exhausted before exit). -/
def spinWhile (clk : Nat → Nat) (cond : Nat → Bool) (i : Nat) : Nat → Option Nat
  | 0 => none
  | fuel + 1 =>
    if cond (reading (clk i)) then spinWhile clk cond (i + 1) fuel else some i

/-- `delay_us` (sht4x.c lines 807-823) over an explicit clock: sample 0 is
the initial read `m`; if the period is zero return at once; compute the
deadline `e = m + period` in `uint64_t` (wrapping); if `m > e` (overflow)
first spin while the reading is above `e`, then in all cases spin while the
reading is below `e`.  Returns the sample index at which the function
returns. -/
def delay_us (clk : Nat → Nat) (period fuel : Nat) : Option Nat :=
  if period = 0 then some 0
  else if (reading (clk 0) + period) % U64 < reading (clk 0) then
    match spinWhile clk (fun r => decide ((reading (clk 0) + period) % U64 < r)) 1 fuel with
    | none => none
    | some j => spinWhile clk (fun r => decide (r < (reading (clk 0) + period) % U64)) (j + 1) fuel
  else
    spinWhile clk (fun r => decide (r < (reading (clk 0) + period) % U64)) 1 fuel

/-- A raw monotone clock that is 5 µs short of the 64-bit wrap at sample 0
and advances 1 µs per sample, so a 10 µs deadline wraps around. -/
def wrapClk (n : Nat) : Nat := 18446744073709551611 + n

/-- A bus whose one-byte command write fails (frame contents irrelevant:
the operation returns before reading). -/
def transportFailBus : Bus := ⟨false, true, ⟨0, 0, 0, 0, 0, 0⟩⟩

/-- A bus where the transport succeeds and the frame's first group carries
a valid checksum (the Sensirion test vector 0xBE 0xEF / 0x92) while the
second group's checksum byte 0x00 is wrong. -/
def checksumFailBus : Bus := ⟨true, true, ⟨0xBE, 0xEF, 0x92, 0xBE, 0xEF, 0x00⟩⟩

/-- A bus where the transport succeeds and both groups verify. -/
def validBus : Bus := ⟨true, true, ⟨0xBE, 0xEF, 0x92, 0xBE, 0xEF, 0x92⟩⟩

/-- A bus delivering the frame 0x12 0x34 crc 0x56 0x78 crc with both
checksums valid, for exercising the serial-number assembly. -/
def serialBus : Bus :=
  ⟨true, true, ⟨0x12, 0x34, generate_crc [0x12, 0x34], 0x56, 0x78, generate_crc [0x56, 0x78]⟩⟩

/-- If the command write fails, every `*_ticks` body returns `ESP_FAIL`
with only the write in its trace and no outputs written. -/
lemma measure_ticks_body_write_fail (cmd d : Nat) (bus : Bus)
    (hw : bus.writeOk = false) :
    measure_ticks_body cmd d bus = (ESP_FAIL, [Event.write cmd], none) := by
  simp [measure_ticks_body, hw]

/-- If the transport succeeds but either group's checksum fails, every
`*_ticks` body returns `ESP_FAIL` with no outputs written. -/
lemma measure_ticks_body_crc_fail (cmd d : Nat) (bus : Bus)
    (hw : bus.writeOk = true) (hr : bus.readOk = true)
    (hc : check_crc [bus.frame.b0, bus.frame.b1] bus.frame.b2 = false ∨
          check_crc [bus.frame.b3, bus.frame.b4] bus.frame.b5 = false) :
    measure_ticks_body cmd d bus =
      (ESP_FAIL, [Event.write cmd, Event.delay d, Event.read 6], none) := by
  rcases hc with hc | hc
  · simp [measure_ticks_body, hw, hr, hc]
  · by_cases h1 : check_crc [bus.frame.b0, bus.frame.b1] bus.frame.b2 = false
    · simp [measure_ticks_body, hw, hr, h1]
    · simp [measure_ticks_body, hw, hr, h1, hc]

/-- Once the command write succeeds, the trace of a `*_ticks` body is
always write, delay, 6-byte read, in that order. -/
lemma measure_ticks_body_trace (cmd d : Nat) (bus : Bus)
    (hw : bus.writeOk = true) :
    (measure_ticks_body cmd d bus).2.1 =
      [Event.write cmd, Event.delay d, Event.read 6] := by
  rw [measure_ticks_body, if_neg (by simp [hw])]
  split_ifs <;> rfl

/-- Once the command write succeeds, the trace of the serial-number read is
write 0x89, 10 ms delay, 6-byte read, in that order. -/
lemma serial_number_trace (bus : Bus) (hw : bus.writeOk = true) :
    (sht4x_get_serial_number bus).2.1 =
      [Event.write SHT4X_SERIAL_NUMBER_CMD, Event.delay (10 * 1000), Event.read 6] := by
  rw [sht4x_get_serial_number, if_neg (by simp [hw])]
  split_ifs <;> rfl

/-- Claim C1: the claim states `sht4x_get_serial_number` assembles the 32-bit
identifier as `b0<<24 | b1<<16 | b3<<8 | b4`; on the frame 0x12 0x34 (crc)
0x56 0x78 (crc), whose two checksum groups both verify, the code instead
reports `(0x12<<8|0x34) | (0x56<<8|0x78) = 0x567C`, not 0x12345678: the
source ORs the two 16-bit pairs together at bit 0 (sht4x.c line 751). -/
theorem serial_number_or_assembly_bug :
    (sht4x_get_serial_number serialBus).1 = ESP_OK ∧
    (sht4x_get_serial_number serialBus).2.2 = some 0x567C ∧
    (0x567C : Nat) ≠ 0x12345678 := by
  refine ⟨by decide, by decide, by decide⟩

/-- Claim C2: for every bus delivering a 6-byte frame in which either
3-byte group's checksum fails (even with the other group valid), each of
the nine tick-level operations returns `ESP_FAIL` and leaves the caller's
temperature and humidity outputs unmodified. -/
theorem checksum_failure_discards_both_outputs :
    ∀ (bus : Bus) (init : Nat × Nat),
      bus.writeOk = true → bus.readOk = true →
      (check_crc [bus.frame.b0, bus.frame.b1] bus.frame.b2 = false ∨
       check_crc [bus.frame.b3, bus.frame.b4] bus.frame.b5 = false) →
      ((sht4x_measure_high_precision_ticks bus).1 = ESP_FAIL ∧
        finalOutputs (sht4x_measure_high_precision_ticks bus) init = init) ∧
      ((sht4x_measure_medium_precision_ticks bus).1 = ESP_FAIL ∧
        finalOutputs (sht4x_measure_medium_precision_ticks bus) init = init) ∧
      ((sht4x_measure_lowest_precision_ticks bus).1 = ESP_FAIL ∧
        finalOutputs (sht4x_measure_lowest_precision_ticks bus) init = init) ∧
      ((sht4x_activate_highest_heater_power_long_ticks bus).1 = ESP_FAIL ∧
        finalOutputs (sht4x_activate_highest_heater_power_long_ticks bus) init = init) ∧
      ((sht4x_activate_highest_heater_power_short_ticks bus).1 = ESP_FAIL ∧
        finalOutputs (sht4x_activate_highest_heater_power_short_ticks bus) init = init) ∧
      ((sht4x_activate_medium_heater_power_long_ticks bus).1 = ESP_FAIL ∧
        finalOutputs (sht4x_activate_medium_heater_power_long_ticks bus) init = init) ∧
      ((sht4x_activate_medium_heater_power_short_ticks bus).1 = ESP_FAIL ∧
        finalOutputs (sht4x_activate_medium_heater_power_short_ticks bus) init = init) ∧
      ((sht4x_activate_lowest_heater_power_long_ticks bus).1 = ESP_FAIL ∧
        finalOutputs (sht4x_activate_lowest_heater_power_long_ticks bus) init = init) ∧
      ((sht4x_activate_lowest_heater_power_short_ticks bus).1 = ESP_FAIL ∧
        finalOutputs (sht4x_activate_lowest_heater_power_short_ticks bus) init = init) := by
  intro bus init hw hr hc
  have key : ∀ cmd d : Nat,
      (measure_ticks_body cmd d bus).1 = ESP_FAIL ∧
      finalOutputs (measure_ticks_body cmd d bus) init = init := by
    intro cmd d
    rw [measure_ticks_body_crc_fail cmd d bus hw hr hc]
    exact ⟨rfl, rfl⟩
  exact ⟨key _ _, key _ _, key _ _, key _ _, key _ _, key _ _, key _ _, key _ _, key _ _⟩

/-- Witness for C2 at a concrete bus whose first checksum group is valid
and whose second is corrupted. -/
theorem checksum_failure_discards_both_outputs_witness :
    (sht4x_measure_high_precision_ticks checksumFailBus).1 = ESP_FAIL ∧
    finalOutputs (sht4x_measure_high_precision_ticks checksumFailBus) (7, 9) = (7, 9) :=
  (checksum_failure_discards_both_outputs checksumFailBus (7, 9)
    (by decide) (by decide) (Or.inr (by decide))).1

/-- Claim C3: `sht4x_init` returns `ESP_OK` whatever
`i2c_master_bus_add_device` returned, failure included. -/
theorem sht4x_init_always_ok : ∀ r : Int, sht4x_init r = ESP_OK := by
  intro r
  simp [sht4x_init]

/-- Claim C4: verifying any 2-byte input against its own computed checksum
succeeds. -/
theorem check_crc_generate_crc_roundtrip :
    ∀ a b : Nat, check_crc [a, b] (generate_crc [a, b]) = true := by
  intro a b
  simp [check_crc]

/-- Claim C5: the checksum of the payload 0xBE 0xEF is 0x92. -/
theorem generate_crc_test_vector : generate_crc [0xBE, 0xEF] = 0x92 := by
  decide

/-- Claim C6: the tick conversions agree with the spec's affine formulas
ticks × 175 / 65535 − 45 and ticks × 125 / 65535 − 6 at every tick value,
with the documented endpoints, and the humidity value at 65535 stays above
100 (no clamping). -/
theorem tick_conversions_affine_endpoints :
    (∀ t : Nat, convert_ticks_to_celsius t = specTempFormula (t : ℚ) ∧
       convert_ticks_to_percent_rh t = specHumFormula (t : ℚ)) ∧
    convert_ticks_to_celsius 0 = -45 ∧
    convert_ticks_to_celsius 65535 = 130 ∧
    convert_ticks_to_percent_rh 0 = -6 ∧
    convert_ticks_to_percent_rh 65535 = 119 ∧
    100 < convert_ticks_to_percent_rh 65535 := by
  refine ⟨fun t => ⟨rfl, rfl⟩, ?_, ?_, ?_, ?_, ?_⟩ <;>
    norm_num [convert_ticks_to_celsius, convert_ticks_to_percent_rh]

/-- Counterexample for claim C8: a transport failure and a checksum failure
produce the same return value (`ESP_FAIL` both times) from
`sht4x_measure_high_precision_ticks`, so the two error kinds are not
distinguishable by the caller. -/
theorem transport_and_checksum_failures_same_value :
    (sht4x_measure_high_precision_ticks transportFailBus).1 = ESP_FAIL ∧
    (sht4x_measure_high_precision_ticks checksumFailBus).1 = ESP_FAIL ∧
    (sht4x_measure_high_precision_ticks transportFailBus).1 =
      (sht4x_measure_high_precision_ticks checksumFailBus).1 := by
  refine ⟨by decide, by decide, by decide⟩

/-- Amended claim C8: every operation returns the single value `ESP_FAIL`
both on a transport write failure and on a checksum mismatch; the caller
cannot tell the two failure kinds apart from the return value. -/
theorem all_failures_return_esp_fail :
    ∀ (cmd d : Nat) (bus bus' : Bus),
      bus.writeOk = false →
      bus'.writeOk = true → bus'.readOk = true →
      (check_crc [bus'.frame.b0, bus'.frame.b1] bus'.frame.b2 = false ∨
       check_crc [bus'.frame.b3, bus'.frame.b4] bus'.frame.b5 = false) →
      (measure_ticks_body cmd d bus).1 = ESP_FAIL ∧
      (measure_ticks_body cmd d bus').1 = ESP_FAIL ∧
      (measure_ticks_body cmd d bus).1 = (measure_ticks_body cmd d bus').1 := by
  intro cmd d bus bus' hw hw' hr' hc'
  rw [measure_ticks_body_write_fail cmd d bus hw,
      measure_ticks_body_crc_fail cmd d bus' hw' hr' hc']
  exact ⟨rfl, rfl, rfl⟩

/-- Witness for the amended C8 at the high-precision opcode with one bus
failing the write and another failing the second checksum group. -/
theorem all_failures_return_esp_fail_witness :
    (measure_ticks_body 0xfd (10 * 1000) transportFailBus).1 = ESP_FAIL ∧
    (measure_ticks_body 0xfd (10 * 1000) checksumFailBus).1 = ESP_FAIL ∧
    (measure_ticks_body 0xfd (10 * 1000) transportFailBus).1 =
      (measure_ticks_body 0xfd (10 * 1000) checksumFailBus).1 :=
  all_failures_return_esp_fail 0xfd (10 * 1000) transportFailBus checksumFailBus
    (by decide) (by decide) (by decide) (Or.inr (by decide))

/-- Claim C7: whenever the command write succeeds, each of the ten
data-bearing operations performs exactly the write of its §6 opcode, then
the delay of its §6 settle time (in microseconds), then the 6-byte read,
in that order. -/
theorem data_ops_opcode_and_settle_trace :
    ∀ bus : Bus, bus.writeOk = true →
      (sht4x_measure_high_precision_ticks bus).2.1 =
        [Event.write 0xfd, Event.delay (10 * 1000), Event.read 6] ∧
      (sht4x_measure_medium_precision_ticks bus).2.1 =
        [Event.write 0xf6, Event.delay (5 * 1000), Event.read 6] ∧
      (sht4x_measure_lowest_precision_ticks bus).2.1 =
        [Event.write 0xe0, Event.delay (2 * 1000), Event.read 6] ∧
      (sht4x_activate_highest_heater_power_long_ticks bus).2.1 =
        [Event.write 0x39, Event.delay (1100 * 1000), Event.read 6] ∧
      (sht4x_activate_highest_heater_power_short_ticks bus).2.1 =
        [Event.write 0x32, Event.delay (110 * 1000), Event.read 6] ∧
      (sht4x_activate_medium_heater_power_long_ticks bus).2.1 =
        [Event.write 0x2f, Event.delay (1100 * 1000), Event.read 6] ∧
      (sht4x_activate_medium_heater_power_short_ticks bus).2.1 =
        [Event.write 0x24, Event.delay (110 * 1000), Event.read 6] ∧
      (sht4x_activate_lowest_heater_power_long_ticks bus).2.1 =
        [Event.write 0x1e, Event.delay (1100 * 1000), Event.read 6] ∧
      (sht4x_activate_lowest_heater_power_short_ticks bus).2.1 =
        [Event.write 0x15, Event.delay (110 * 1000), Event.read 6] ∧
      (sht4x_get_serial_number bus).2.1 =
        [Event.write 0x89, Event.delay (10 * 1000), Event.read 6] := by
  intro bus hw
  exact ⟨measure_ticks_body_trace _ _ bus hw, measure_ticks_body_trace _ _ bus hw,
    measure_ticks_body_trace _ _ bus hw, measure_ticks_body_trace _ _ bus hw,
    measure_ticks_body_trace _ _ bus hw, measure_ticks_body_trace _ _ bus hw,
    measure_ticks_body_trace _ _ bus hw, measure_ticks_body_trace _ _ bus hw,
    measure_ticks_body_trace _ _ bus hw, serial_number_trace bus hw⟩

/-- Witness for C7 at a concrete bus with a fully valid frame. -/
theorem data_ops_opcode_and_settle_trace_witness :
    (sht4x_measure_high_precision_ticks validBus).2.1 =
      [Event.write 0xfd, Event.delay (10 * 1000), Event.read 6] ∧
    (sht4x_get_serial_number validBus).2.1 =
      [Event.write 0x89, Event.delay (10 * 1000), Event.read 6] :=
  ⟨(data_ops_opcode_and_settle_trace validBus (by decide)).1,
   (data_ops_opcode_and_settle_trace validBus (by decide)).2.2.2.2.2.2.2.2.2⟩

/-- Claim C9: if the transport fails the initial one-byte command write,
every operation returns `ESP_FAIL` at once: its trace holds only the write
(no delay event, no read event) and no outputs are written. -/
theorem write_failure_immediate_return :
    ∀ bus : Bus, bus.writeOk = false →
      sht4x_measure_high_precision_ticks bus = (ESP_FAIL, [Event.write 0xfd], none) ∧
      sht4x_measure_medium_precision_ticks bus = (ESP_FAIL, [Event.write 0xf6], none) ∧
      sht4x_measure_lowest_precision_ticks bus = (ESP_FAIL, [Event.write 0xe0], none) ∧
      sht4x_activate_highest_heater_power_long_ticks bus = (ESP_FAIL, [Event.write 0x39], none) ∧
      sht4x_activate_highest_heater_power_short_ticks bus = (ESP_FAIL, [Event.write 0x32], none) ∧
      sht4x_activate_medium_heater_power_long_ticks bus = (ESP_FAIL, [Event.write 0x2f], none) ∧
      sht4x_activate_medium_heater_power_short_ticks bus = (ESP_FAIL, [Event.write 0x24], none) ∧
      sht4x_activate_lowest_heater_power_long_ticks bus = (ESP_FAIL, [Event.write 0x1e], none) ∧
      sht4x_activate_lowest_heater_power_short_ticks bus = (ESP_FAIL, [Event.write 0x15], none) ∧
      sht4x_get_serial_number bus = (ESP_FAIL, [Event.write 0x89], none) ∧
      sht4x_soft_reset bus = (ESP_FAIL, [Event.write 0x94]) := by
  intro bus hw
  refine ⟨measure_ticks_body_write_fail _ _ bus hw, measure_ticks_body_write_fail _ _ bus hw,
    measure_ticks_body_write_fail _ _ bus hw, measure_ticks_body_write_fail _ _ bus hw,
    measure_ticks_body_write_fail _ _ bus hw, measure_ticks_body_write_fail _ _ bus hw,
    measure_ticks_body_write_fail _ _ bus hw, measure_ticks_body_write_fail _ _ bus hw,
    measure_ticks_body_write_fail _ _ bus hw, ?_, ?_⟩
  · simp [sht4x_get_serial_number, SHT4X_SERIAL_NUMBER_CMD, hw]
  · simp [sht4x_soft_reset, SHT4X_SOFT_RESET_CMD, hw]

/-- Witness for C9 at a concrete bus whose command write fails. -/
theorem write_failure_immediate_return_witness :
    sht4x_measure_high_precision_ticks transportFailBus =
      (ESP_FAIL, [Event.write 0xfd], none) ∧
    sht4x_soft_reset transportFailBus = (ESP_FAIL, [Event.write 0x94]) :=
  ⟨(write_failure_immediate_return transportFailBus (by decide)).1,
   (write_failure_immediate_return transportFailBus (by decide)).2.2.2.2.2.2.2.2.2.2⟩

/-- A busy-wait loop only exits at a sample at or after its start index
whose reading falsifies the loop condition. -/
lemma spinWhile_exit (clk : Nat → Nat) (cond : Nat → Bool) :
    ∀ fuel i j, spinWhile clk cond i fuel = some j →
      i ≤ j ∧ cond (reading (clk j)) = false := by
  intro fuel
  induction fuel with
  | zero => intro i j h; simp [spinWhile] at h
  | succ n ih =>
    intro i j h
    rw [spinWhile] at h
    by_cases hc : cond (reading (clk i)) = true
    · rw [if_pos hc] at h
      obtain ⟨h1, h2⟩ := ih (i + 1) j h
      exact ⟨Nat.le_of_succ_le h1, h2⟩
    · rw [if_neg hc] at h
      injection h with h
      subst h
      exact ⟨Nat.le_refl i, Bool.eq_false_iff.mpr hc⟩

/-- Claim C10: first, for every monotone raw clock, every positive period
(below the `uint32_t` bound of the C parameter) and every amount of fuel,
if `delay_us` returns at some sample then the raw clock at that sample has
reached the absolute deadline `start + period` — in particular a deadline
whose 64-bit value is numerically smaller than the start reading causes no
premature exit.  Second, on a concrete 1 µs/sample clock whose 10 µs
deadline wraps around 2^64, `delay_us` terminates, exactly at the deadline,
even though the wrapped deadline is numerically below the start reading. -/
theorem delay_us_deadline_correct :
    (∀ (clk : Nat → Nat) (period fuel k : Nat),
       (∀ i j, i ≤ j → clk i ≤ clk j) → 0 < period → period < 4294967296 →
       delay_us clk period fuel = some k → clk 0 + period ≤ clk k) ∧
    delay_us wrapClk 10 30 = some 10 ∧
    wrapClk 10 = wrapClk 0 + 10 ∧
    (reading (wrapClk 0) + 10) % U64 < reading (wrapClk 0) := by
  refine ⟨?_, by decide, by decide, by decide⟩
  intro clk period fuel k mono hp h32 h
  rw [delay_us, if_neg hp.ne'] at h
  by_cases hw : (reading (clk 0) + period) % U64 < reading (clk 0)
  · rw [if_pos hw] at h
    cases hsp : spinWhile clk
        (fun r => decide ((reading (clk 0) + period) % U64 < r)) 1 fuel with
    | none => rw [hsp] at h; exact absurd h (by simp)
    | some j =>
      rw [hsp] at h
      simp only at h
      obtain ⟨hj1, hjc⟩ := spinWhile_exit clk _ fuel 1 j hsp
      obtain ⟨hk1, hkc⟩ := spinWhile_exit clk _ fuel (j + 1) k h
      simp only [decide_eq_false_iff_not, not_lt] at hjc hkc
      have h0j : clk 0 ≤ clk j := mono 0 j (Nat.zero_le j)
      have hjk : clk j ≤ clk k := mono j k (by omega)
      simp only [reading, U64] at hw hjc hkc
      omega
  · rw [if_neg hw] at h
    obtain ⟨hk1, hkc⟩ := spinWhile_exit clk _ fuel 1 k h
    simp only [decide_eq_false_iff_not, not_lt] at hkc
    have h0k : clk 0 ≤ clk k := mono 0 k (Nat.zero_le k)
    simp only [reading, U64, not_lt] at hw hkc
    omega

/-- Witness for C10: on the concrete wrapping clock, the sample at which
`delay_us` returns has reached the absolute deadline. -/
theorem delay_us_deadline_correct_witness :
    wrapClk 0 + 10 ≤ wrapClk 10 :=
  delay_us_deadline_correct.1 wrapClk 10 30 10
    (fun i j hij => by simp only [wrapClk]; omega)
    (by decide) (by decide) delay_us_deadline_correct.2.1

end Sht4x
